import Mathlib

/-!
Shallow embedding of the orchestration core of the medical-bill processing
repository: the Execution Monitor (src/agents/governing_agent.py), the
Pipeline Orchestrator (src/orchestrator/medical_bill_orchestrator.py), the
capability-client retry configuration (src/orchestrator/agent_wrapper.py and
src/agents/bill_extraction.py), the Document Loader (src/utils/image_utils.py),
the session acquisition idiom (src/main.py, run_session) and the interactive
CLI loop (src/main.py, main).  External collaborators (the generation
capability, the PDF rasterizer, PIL, the ADK session service) are modelled as
explicit oracles or, where the spec pins their contract, from the spec.
-/

namespace MedBill

/-! ## Execution Monitor (GoverningAgent, src/agents/governing_agent.py)

Wall-clock readings of datetime.now() are modelled by a logical counter
carried in the state; each reading returns the counter and bumps it. -/

/-- One entry of the execution log appended by log_agent_execution:
a dict with keys timestamp, agent, status, details. -/
structure ExecEvent where
  timestamp : Nat
  agent : String
  status : String
  details : String
  deriving DecidableEq, Repr

/-- State of a GoverningAgent instance: the append-only execution_log and the
optional start_time / end_time marks, plus the logical clock. -/
structure GoverningAgent where
  execution_log : List ExecEvent
  start_time : Option Nat
  end_time : Option Nat
  clock : Nat
  deriving DecidableEq, Repr

/-- A freshly constructed GoverningAgent: empty log, no start or end mark. -/
def GoverningAgent.init : GoverningAgent := ⟨[], none, none, 0⟩

/-- start_workflow: record the current time as start_time. -/
def start_workflow (g : GoverningAgent) : GoverningAgent :=
  { g with start_time := some g.clock, clock := g.clock + 1 }

/-- end_workflow: record the current time as end_time. -/
def end_workflow (g : GoverningAgent) : GoverningAgent :=
  { g with end_time := some g.clock, clock := g.clock + 1 }

/-- log_agent_execution(agent_name, status, details): append one event to the
execution log.  It never fails and never truncates the log. -/
def log_agent_execution (g : GoverningAgent) (agent status details : String) :
    GoverningAgent :=
  { g with execution_log := g.execution_log ++ [⟨g.clock, agent, status, details⟩],
           clock := g.clock + 1 }

/-- One step of the Python status-counting loop
status_counts[status] = status_counts.get(status, 0) + 1, on an
insertion-ordered association list (Python dicts preserve insertion order). -/
def bumpStatus : List (String × Nat) → String → List (String × Nat)
  | [], s => [(s, 1)]
  | (k, v) :: rest, s =>
    if k = s then (k, v + 1) :: rest else (k, v) :: bumpStatus rest s

/-- The status_counts dict built by generate_report from the execution log. -/
def statusCounts (log : List ExecEvent) : List (String × Nat) :=
  log.foldl (fun acc e => bumpStatus acc e.status) []

/-- status_counts.get(k, 0). -/
def getCount (m : List (String × Nat)) (k : String) : Nat :=
  match m.find? (fun kv => kv.1 == k) with
  | some kv => kv.2
  | none => 0

/-- Round-half-to-even of a / n on naturals, in the units of a / n
(used below with a scaled by 1000 to get tenths of a percent).  This is the
rounding performed by the CPython one-decimal float format. -/
def roundHalfEvenDiv (a n : Nat) : Nat :=
  if 2 * (a % n) < n then a / n
  else if n < 2 * (a % n) then a / n + 1
  else if (a / n) % 2 = 0 then a / n else a / n + 1

/-- Render a number of tenths as a decimal string with exactly one digit
after the point, followed by a percent sign. -/
def formatTenthsPct (tenths : Nat) : String :=
  toString (tenths / 10) ++ "." ++ toString (tenths % 10) ++ "%"

/-- The one-decimal percentage string computed by generate_report for
s SUCCESS events out of n: the value s / n * 100 rendered with one decimal
digit and a trailing percent sign. -/
def successRateStr (s n : Nat) : String :=
  formatTenthsPct (roundHalfEvenDiv (s * 1000) n)

/-- The report dict built by generate_report when a workflow was started. -/
structure Report where
  workflow_duration_seconds : Nat
  total_events : Nat
  agents_executed : Nat
  agent_names : List String
  status_summary : List (String × Nat)
  execution_timeline : List ExecEvent
  success_rate : String
  deriving DecidableEq, Repr

/-- Return value of generate_report: either the early return
dict with the single key status = "No workflow executed" (constructor
noWorkflow), or the full report dict. -/
inductive ReportResult where
  | noWorkflow
  | report (r : Report)
  deriving DecidableEq, Repr

/-- generate_report(): early-returns the no-workflow dict when start_time was
never set; otherwise builds the full report over the accumulated log.
agent_names is list(set(...)) in Python, whose order is unspecified; the
model fixes first-occurrence order. -/
def generate_report (g : GoverningAgent) : ReportResult :=
  match g.start_time with
  | none => .noWorkflow
  | some st =>
    let duration := match g.end_time with
      | some et => et - st
      | none => 0
    let counts := statusCounts g.execution_log
    let names := (g.execution_log.map (fun e => e.agent)).eraseDups
    .report
      { workflow_duration_seconds := duration
        total_events := g.execution_log.length
        agents_executed := names.length
        agent_names := names
        status_summary := counts
        execution_timeline := g.execution_log
        success_rate :=
          if g.execution_log.isEmpty then "N/A"
          else successRateStr (getCount counts "SUCCESS") g.execution_log.length }

/-! ## Pipeline Orchestrator (src/orchestrator/medical_bill_orchestrator.py) -/

/-- One value of the stages mapping of a ProcessingResult. -/
structure StageEntry where
  status : String
  data : String
  deriving DecidableEq, Repr

/-- The results dict built by process_bill.  Keys that Python adds only on
some paths (final_output, error, governance_report) are Options; the stages
dict is an insertion-ordered association list. -/
structure ProcessingResult where
  bill_file : String
  status : String
  stages : List (String × StageEntry)
  final_output : Option String
  error : Option String
  governance_report : Option ReportResult
  deriving DecidableEq, Repr

/-- Behavior of the three external capability calls made by process_bill:
bill_extractor.extract, charge_extractor.extract and parallel_auditors.run
(the latter already composed with str(...), which on the text the runner
returns is the identity).  An error value carries str(e) of the raised
exception, which in Python may be the empty string. -/
structure Env where
  extract_bill : String → Except String String
  extract_charges : String → Except String String
  run_parallel : String → Except String String

/-- The finally block of process_bill: end_workflow, then attach the
governance report generated from the post-end monitor state. -/
def finishRun (res : ProcessingResult) (g : GoverningAgent) :
    ProcessingResult × GoverningAgent :=
  let g2 := end_workflow g
  ({ res with governance_report := some (generate_report g2) }, g2)

/-- process_bill(bill_file_path): the fixed three-step pipeline with the
single top-level exception handler and the finally block, threading the
GoverningAgent state.  Returns the results dict together with the final
monitor state. -/
def process_bill (env : Env) (g0 : GoverningAgent) (bill_file_path : String) :
    ProcessingResult × GoverningAgent :=
  let g := start_workflow g0
  let res0 : ProcessingResult :=
    { bill_file := bill_file_path, status := "IN_PROGRESS", stages := []
      final_output := none, error := none, governance_report := none }
  let g := log_agent_execution g "BillExtraction" "STARTED" ""
  match env.extract_bill bill_file_path with
  | .error e =>
    finishRun { res0 with status := "FAILED", error := some e }
      (log_agent_execution g "Orchestrator" "FAILED" e)
  | .ok extracted_data =>
    let res1 := { res0 with
      stages := res0.stages ++ [("bill_extraction", StageEntry.mk "SUCCESS" extracted_data)] }
    let g := log_agent_execution g "BillExtraction" "SUCCESS"
      ("(" ++ toString extracted_data.length ++ " chars)")
    let g := log_agent_execution g "ChargeExtraction" "STARTED" ""
    match env.extract_charges extracted_data with
    | .error e =>
      finishRun { res1 with status := "FAILED", error := some e }
        (log_agent_execution g "Orchestrator" "FAILED" e)
    | .ok charges_data =>
      let res2 := { res1 with
        stages := res1.stages ++ [("charge_extraction", StageEntry.mk "SUCCESS" charges_data)] }
      let g := log_agent_execution g "ChargeExtraction" "SUCCESS" ""
      let g := log_agent_execution g "DuplicateAuditor" "STARTED" ""
      let g := log_agent_execution g "CodeAuditor" "STARTED" ""
      let g := log_agent_execution g "ChargeExplainer" "STARTED" ""
      match env.run_parallel charges_data with
      | .error e =>
        finishRun { res2 with status := "FAILED", error := some e }
          (log_agent_execution g "Orchestrator" "FAILED" e)
      | .ok parallel_results =>
        let res3 := { res2 with
          stages := res2.stages ++
            [("parallel_analysis", StageEntry.mk "SUCCESS" parallel_results)]
          status := "COMPLETED"
          final_output := some parallel_results }
        let g := log_agent_execution g "DuplicateAuditor" "SUCCESS" ""
        let g := log_agent_execution g "CodeAuditor" "SUCCESS" ""
        let g := log_agent_execution g "ChargeExplainer" "SUCCESS" ""
        finishRun res3 g

/-- The (agent, status) summary of a logged event, used to state ordering
properties of the log independently of timestamps and detail strings. -/
def evSummary (e : ExecEvent) : String × String := (e.agent, e.status)

/-- The (agent, status, details) record of a logged event, timestamp
elided. -/
def evRecord (e : ExecEvent) : String × String × String :=
  (e.agent, e.status, e.details)

/-! ## Spec-side success-rate expression

The spec states success_rate as round(S/N*100, 1) rendered with one decimal
digit and a trailing percent sign.  Python round() rounds half to even. -/

/-- Round-half-to-even of a rational to an integer, the rounding used by
Python round() (stated over the exact rational value). -/
def roundHalfEvenQ (x : ℚ) : ℤ :=
  if x - ⌊x⌋ < 1 / 2 then ⌊x⌋
  else if (1 : ℚ) / 2 < x - ⌊x⌋ then ⌊x⌋ + 1
  else if ⌊x⌋ % 2 = 0 then ⌊x⌋ else ⌊x⌋ + 1

/-- The success-rate string as the spec words it: round(s / n * 100, 1)
rendered with exactly one decimal digit and a trailing percent sign. -/
def specSuccessRate (s n : Nat) : String :=
  formatTenthsPct (roundHalfEvenQ ((s : ℚ) / (n : ℚ) * 100 * 10)).toNat

/-! ## Capability-client retry configuration

From AgentWrapper._create_model (src/orchestrator/agent_wrapper.py) and the
constructors of the five stage agents (src/agents/*.py).  The retry policy is
static configuration data attached to the client at construction time. -/

/-- google.genai types.HttpRetryOptions as configured in the source. -/
structure HttpRetryOptions where
  attempts : Nat
  exp_base : Nat
  initial_delay : Nat
  http_status_codes : List Nat
  deriving DecidableEq, Repr

/-- The retry options built inside AgentWrapper._create_model. -/
def create_model_retry_options : HttpRetryOptions :=
  { attempts := 5, exp_base := 2, initial_delay := 1
    http_status_codes := [429, 500, 503, 504] }

/-- The agent_type tag of an AgentWrapper. -/
inductive AgentType where
  | Agent
  | ParallelAgent
  | SequentialAgent
  deriving DecidableEq, Repr

/-- The retry options of the model an AgentWrapper creates: _create_model is
called only when agent_type is Agent; Parallel and Sequential wrappers set
self.model = None. -/
def agentWrapperRetry : AgentType → Option HttpRetryOptions
  | .Agent => some create_model_retry_options
  | .ParallelAgent => none
  | .SequentialAgent => none

/-- The retry configuration visible on the capability client a stage agent
uses for its generation calls. -/
structure StageAgentModel where
  name : String
  clientRetry : Option HttpRetryOptions
  deriving DecidableEq, Repr

/-- BillExtractionAgent: calls the capability through the bare
genai.Client(api_key=...) built in its constructor; no retry options are
passed to that client or to its generate_content call. -/
def billExtractionAgent : StageAgentModel :=
  { name := "BillExtractionAgent", clientRetry := none }

/-- ChargeExtractionAgent: built on AgentWrapper with the default
agent_type = Agent, hence on the Gemini model from _create_model. -/
def chargeExtractionAgent : StageAgentModel :=
  { name := "ChargeExtractionAgent", clientRetry := agentWrapperRetry .Agent }

/-- DuplicateChargesAuditor: AgentWrapper with agent_type = Agent. -/
def duplicateChargesAuditor : StageAgentModel :=
  { name := "DuplicateChargesAuditor", clientRetry := agentWrapperRetry .Agent }

/-- WrongCodesAuditor: AgentWrapper with agent_type = Agent. -/
def wrongCodesAuditor : StageAgentModel :=
  { name := "WrongCodesAuditor", clientRetry := agentWrapperRetry .Agent }

/-- ChargeExplainer: AgentWrapper with agent_type = Agent. -/
def chargeExplainerAgent : StageAgentModel :=
  { name := "ChargeExplainer", clientRetry := agentWrapperRetry .Agent }

/-- The five stage agents of the pipeline. -/
def stageAgents : List StageAgentModel :=
  [billExtractionAgent, chargeExtractionAgent, duplicateChargesAuditor,
   wrongCodesAuditor, chargeExplainerAgent]

/-! ## Document Loader (src/utils/image_utils.py)

validate_file_exists and load_image_part, as composed by
BillExtractionAgent.extract.  The filesystem and the two decoding libraries
(pdf2image convert_from_path, PIL.Image.open) are explicit oracles; a raster
page is an opaque token. -/

/-- What a path resolves to on the filesystem.  Path.exists() is true for
both files and directories. -/
inductive FSEntry where
  | missing
  | file
  | dir
  deriving DecidableEq, Repr

/-- The distinct failure modes of the load path.  notFound models
FileNotFoundError; conversion models the Exception raised with the poppler
hint, wrapping the cause; imageOpen models whatever PIL.Image.open raises on
a non-PDF path (on an existing directory that is IsADirectoryError, never
FileNotFoundError). -/
inductive LoadError where
  | notFound (msg : String)
  | conversion (msg : String) (cause : String)
  | imageOpen (msg : String)
  deriving DecidableEq, Repr

/-- The normalized multimodal payload: instruction text plus one encoded
page (the RGB/JPEG re-encoding of the page token is kept abstract). -/
structure UserContent where
  instruction : String
  image : Nat
  deriving DecidableEq, Repr

/-- Behavior of the external decoders. -/
structure DecodeOracle where
  convert_from_path : String → Except String (List Nat)
  pil_open : String → Except String Nat

/-- validate_file_exists: raises FileNotFoundError when Path(p).exists() is
false, returns the path otherwise. -/
def validate_file_exists (fs : String → FSEntry) (p : String) :
    Except LoadError String :=
  if fs p = .missing then .error (.notFound ("File not found at: " ++ p))
  else .ok p

/-- Python str.strip(): drop whitespace from both ends (stated over the
character list; Python also strips a few rarer Unicode whitespace characters,
irrelevant to the inputs at hand). -/
def pyStrip (s : String) : String :=
  ⟨((s.data.dropWhile Char.isWhitespace).reverse.dropWhile
    Char.isWhitespace).reverse⟩

/-- Python str.lower() on ASCII text. -/
def pyLower (s : String) : String := ⟨s.data.map Char.toLower⟩

/-- The file_path.lower().endswith(".pdf") test of load_image_part. -/
def isPdfPath (p : String) : Bool := ".pdf".data.isSuffixOf (pyLower p).data

/-- load_image_part: for a PDF path, convert_from_path inside a try block
whose except clause wraps any failure (including the ValueError raised for a
zero-page PDF) into the Exception carrying the configured poppler path; for
any other path, PIL.Image.open. -/
def load_image_part (oracle : DecodeOracle) (poppler : String)
    (p instruction : String) : Except LoadError UserContent :=
  if isPdfPath p then
    match oracle.convert_from_path p with
    | .error e => .error (.conversion ("Failed to convert PDF. Check path: " ++ poppler) e)
    | .ok [] => .error (.conversion ("Failed to convert PDF. Check path: " ++ poppler) "PDF is empty")
    | .ok (img :: _) => .ok ⟨instruction, img⟩
  else
    match oracle.pil_open p with
    | .error e => .error (.imageOpen e)
    | .ok img => .ok ⟨instruction, img⟩

/-- The load operation of the Document Loader as used by
BillExtractionAgent.extract: validate_file_exists then load_image_part. -/
def loadBillDocument (fs : String → FSEntry) (oracle : DecodeOracle)
    (poppler : String) (p instruction : String) : Except LoadError UserContent :=
  match validate_file_exists fs p with
  | .error err => .error err
  | .ok vp => load_image_part oracle poppler vp instruction

/-- Whether a load outcome is a NotFoundError. -/
def isNotFound : Except LoadError UserContent → Bool
  | .error (.notFound _) => true
  | _ => false

/-! ## Session Store and the create-or-get idiom (src/main.py, run_session)

Modelled from the spec: the durable session service itself
(google.adk DatabaseSessionService) is an external collaborator; spec section
4.6 pins its contract: create_session creates a fresh session and fails on a
session-already-exists condition, get_session returns the stored session,
append_turn is append-only.  The create-then-fallback-to-get idiom below is
the one in run_session. -/

/-- One conversational turn. -/
structure Turn where
  role : String
  text : String
  deriving DecidableEq, Repr

/-- A stored session: its identity and its ordered turn log. -/
structure AdkSession where
  id : String
  events : List Turn
  deriving DecidableEq, Repr

/-- The (app_name, user_id, session_id) key. -/
abbrev SessionKey := String × String × String

/-- The durable store: an insertion-ordered table of sessions by key. -/
structure SessionStore where
  table : List (SessionKey × AdkSession)
  deriving DecidableEq, Repr

/-- Look a session up by key. -/
def lookupSession (st : SessionStore) (k : SessionKey) : Option AdkSession :=
  (st.table.find? (fun kv => kv.1 == k)).map (fun kv => kv.2)

/-- Modelled from the spec: create_session(app, user, session_id) stores and
returns a fresh empty session, failing when one already exists for the key. -/
def create_session (st : SessionStore) (app user sid : String) :
    Except String (AdkSession × SessionStore) :=
  match lookupSession st (app, user, sid) with
  | some _ => .error "Session already exists"
  | none =>
    let s : AdkSession := ⟨sid, []⟩
    .ok (s, ⟨st.table ++ [((app, user, sid), s)]⟩)

/-- Modelled from the spec: get_session returns the stored session. -/
def get_session (st : SessionStore) (app user sid : String) : Option AdkSession :=
  lookupSession st (app, user, sid)

/-- The create-then-fallback-to-get idiom of run_session: try create_session,
on any exception fall back to get_session.  The final fallback value is
unreachable: create_session only fails when the key is present. -/
def create_or_get (st : SessionStore) (app user sid : String) :
    AdkSession × SessionStore :=
  match create_session st app user sid with
  | .ok (s, st2) => (s, st2)
  | .error _ =>
    match get_session st app user sid with
    | some s => (s, st)
    | none => (⟨sid, []⟩, st)

/-- Modelled from the spec: append one turn to the stored log of key k. -/
def append_turn (st : SessionStore) (k : SessionKey) (t : Turn) : SessionStore :=
  ⟨st.table.map (fun kv =>
    if kv.1 == k then (kv.1, ⟨kv.2.id, kv.2.events ++ [t]⟩) else kv)⟩

/-- Append a list of turns in order. -/
def append_turns (st : SessionStore) (k : SessionKey) (ts : List Turn) :
    SessionStore :=
  ts.foldl (fun s t => append_turn s k t) st

/-- The ordered turn log stored for key k (empty when the key is absent). -/
def sessionLog (st : SessionStore) (k : SessionKey) : List Turn :=
  match lookupSession st k with
  | some s => s.events
  | none => []

/-- A store is well formed when every stored session carries the session_id
component of its key as its identity.  create_session only stores such
sessions. -/
def WFStore (st : SessionStore) : Prop :=
  ∀ k : SessionKey, ∀ s : AdkSession, lookupSession st k = some s → s.id = k.2.2

/-! ## Interactive CLI loop (src/main.py, main) -/

/-- What the interactive loop does with one line of input. -/
inductive CliAction where
  | quitLoop
  | ignore
  | forward (q : String)
  deriving DecidableEq, Repr

/-- The classification performed by the interactive loop on each line:
strip surrounding whitespace; terminate on a case-insensitive match against
the literals quit, exit, q; skip falsy (empty) input; otherwise forward the
stripped input to the chatbot session. -/
def classify_input (s : String) : CliAction :=
  let user_input := pyStrip s
  if ["quit", "exit", "q"].contains (pyLower user_input) then .quitLoop
  else if user_input ≠ "" then .forward user_input
  else .ignore

/-! ## Accessors used to state which keys a generate_report result carries -/

/-- The total_events value of a generate_report result, none when the
returned dict has no such key. -/
def ReportResult.totalEventsVal : ReportResult → Option Nat
  | .noWorkflow => none
  | .report r => some r.total_events

/-- The success_rate value of a generate_report result, none when the
returned dict has no such key. -/
def ReportResult.successRateVal : ReportResult → Option String
  | .noWorkflow => none
  | .report r => some r.success_rate

/-- The execution_timeline value of a generate_report result, none when the
returned dict has no such key. -/
def ReportResult.timelineVal : ReportResult → Option (List ExecEvent)
  | .noWorkflow => none
  | .report r => some r.execution_timeline

/-! ## Helper lemmas -/

theorem getCount_nil (s : String) : getCount [] s = 0 := rfl

theorem getCount_cons (k : String) (v : Nat) (l : List (String × Nat)) (s : String) :
    getCount ((k, v) :: l) s = if k = s then v else getCount l s := by
  by_cases h : k = s
  · subst h
    simp [getCount, List.find?]
  · simp only [getCount, List.find?]
    rw [show (k == s) = false from beq_eq_false_iff_ne.mpr h]
    simp [h]

theorem getCount_bumpStatus (m : List (String × Nat)) (st s : String) :
    getCount (bumpStatus m st) s = getCount m s + (if st = s then 1 else 0) := by
  induction m with
  | nil =>
    by_cases h : st = s
    · subst h
      simp [bumpStatus, getCount_cons, getCount_nil]
    · simp [bumpStatus, getCount_cons, getCount_nil, h]
  | cons kv rest ih =>
    obtain ⟨k, v⟩ := kv
    by_cases hk : k = st
    · subst hk
      rw [show bumpStatus ((k, v) :: rest) k = (k, v + 1) :: rest by
        simp [bumpStatus]]
      by_cases hs : k = s
      · subst hs
        simp [getCount_cons]
      · simp [getCount_cons, hs]
    · rw [show bumpStatus ((k, v) :: rest) st = (k, v) :: bumpStatus rest st by
        simp [bumpStatus, hk]]
      by_cases hs : k = s
      · subst hs
        have hst : ¬st = k := fun h => hk h.symm
        simp [getCount_cons, hst]
      · simp [getCount_cons, hs, ih]

theorem getCount_statusCounts_aux (log : List ExecEvent) (acc : List (String × Nat))
    (s : String) :
    getCount (log.foldl (fun a e => bumpStatus a e.status) acc) s
      = getCount acc s + log.countP (fun e => e.status == s) := by
  induction log generalizing acc with
  | nil => simp
  | cons e rest ih =>
    simp only [List.foldl_cons, List.countP_cons]
    rw [ih, getCount_bumpStatus]
    by_cases h : e.status = s
    · simp [h]
      omega
    · simp [h]

theorem getCount_statusCounts (log : List ExecEvent) (s : String) :
    getCount (statusCounts log) s = log.countP (fun e => e.status == s) := by
  have h := getCount_statusCounts_aux log [] s
  simpa [statusCounts, getCount] using h

theorem floor_natCast_div (a n : ℕ) (hn : 0 < n) :
    ⌊(a : ℚ) / (n : ℚ)⌋ = ((a / n : ℕ) : ℤ) := by
  have hn0 : (0 : ℚ) < (n : ℚ) := by exact_mod_cast hn
  rw [Int.floor_eq_iff]
  constructor
  · push_cast
    exact Nat.cast_div_le
  · have hnat : a < (a / n + 1) * n := by
      have h1 := Nat.div_add_mod a n
      have h2 := Nat.mod_lt a hn
      calc a = n * (a / n) + a % n := h1.symm
        _ < n * (a / n) + n := Nat.add_lt_add_left h2 _
        _ = (a / n + 1) * n := by ring
    rw [div_lt_iff₀ hn0]
    push_cast
    exact_mod_cast hnat

theorem frac_natCast_div (a n : ℕ) (hn : 0 < n) :
    (a : ℚ) / (n : ℚ) - ((a / n : ℕ) : ℚ) = ((a % n : ℕ) : ℚ) / (n : ℚ) := by
  have hn0 : (0 : ℚ) < (n : ℚ) := by exact_mod_cast hn
  have h1 : ((n * (a / n) + a % n : ℕ) : ℚ) = (a : ℚ) := by
    rw [Nat.div_add_mod a n]
  push_cast at h1
  field_simp
  linarith

theorem roundHalfEvenQ_natDiv (a n : ℕ) (hn : 0 < n) :
    roundHalfEvenQ ((a : ℚ) / (n : ℚ)) = ((roundHalfEvenDiv a n : ℕ) : ℤ) := by
  have hn0 : (0 : ℚ) < (n : ℚ) := by exact_mod_cast hn
  have hfl : ⌊(a : ℚ) / (n : ℚ)⌋ = ((a / n : ℕ) : ℤ) := floor_natCast_div a n hn
  have hfr : (a : ℚ) / (n : ℚ) - (((a / n : ℕ) : ℤ) : ℚ) = ((a % n : ℕ) : ℚ) / (n : ℚ) := by
    push_cast
    push_cast at *
    exact frac_natCast_div a n hn
  have hlt : (((a % n : ℕ) : ℚ) / (n : ℚ) < 1 / 2) ↔ 2 * (a % n) < n := by
    rw [div_lt_div_iff₀ hn0 (by norm_num : (0 : ℚ) < 2)]
    constructor
    · intro h
      have h0 : ((a % n : ℕ) : ℚ) * 2 < 1 * (n : ℚ) := h
      rw [one_mul] at h0
      have h2 : ((a % n) * 2 : ℕ) < n := by exact_mod_cast h0
      omega
    · intro h
      rw [one_mul]
      exact_mod_cast Nat.lt_of_lt_of_le (by omega : (a % n) * 2 < n) (le_refl n)
  have hgt : (1 / 2 < ((a % n : ℕ) : ℚ) / (n : ℚ)) ↔ n < 2 * (a % n) := by
    rw [div_lt_div_iff₀ (by norm_num : (0 : ℚ) < 2) hn0]
    constructor
    · intro h
      have h0 : 1 * (n : ℚ) < ((a % n : ℕ) : ℚ) * 2 := h
      rw [one_mul] at h0
      have h2 : n < ((a % n) * 2 : ℕ) := by exact_mod_cast h0
      omega
    · intro h
      rw [one_mul]
      exact_mod_cast (by omega : n < (a % n) * 2)
  have hpar : (((a / n : ℕ) : ℤ) % 2 = 0) ↔ ((a / n) % 2 = 0) := by omega
  simp only [roundHalfEvenQ, roundHalfEvenDiv, hfl, hfr, hlt, hgt, hpar]
  by_cases h1 : 2 * (a % n) < n
  · simp [h1]
  · by_cases h2 : n < 2 * (a % n)
    · simp [h1, h2]
    · by_cases h3 : (a / n) % 2 = 0 <;> simp [h1, h2, h3]

theorem successRateStr_eq_specSuccessRate (s n : ℕ) (hn : 0 < n) :
    successRateStr s n = specSuccessRate s n := by
  unfold successRateStr specSuccessRate
  have hx : (s : ℚ) / (n : ℚ) * 100 * 10 = ((s * 1000 : ℕ) : ℚ) / (n : ℚ) := by
    push_cast
    ring
  rw [hx, roundHalfEvenQ_natDiv (s * 1000) n hn, Int.toNat_natCast]

/-! ## Claim theorems: Execution Monitor -/

/-- C3 (amended): once a workflow has been started, generate_report on a log
of N >= 1 events with S SUCCESS events returns the full report, with
total_events = N and success_rate equal to round(S/N*100, 1) rendered with
exactly one decimal digit and a trailing percent sign. -/
theorem generate_report_success_rate (g : GoverningAgent) (t : Nat)
    (hstart : g.start_time = some t) (hne : g.execution_log ≠ []) :
    ∃ r, generate_report g = .report r ∧
      r.total_events = g.execution_log.length ∧
      r.success_rate =
        specSuccessRate (g.execution_log.countP (fun e => e.status == "SUCCESS"))
          g.execution_log.length := by
  have hlen : 0 < g.execution_log.length := List.length_pos.mpr hne
  have hempty : g.execution_log.isEmpty = false := by
    simp [List.isEmpty_iff, hne]
  simp only [generate_report, hstart]
  refine ⟨_, rfl, rfl, ?_⟩
  simp only [hempty, Bool.false_eq_true, if_false]
  rw [getCount_statusCounts, successRateStr_eq_specSuccessRate _ _ hlen]

/-- C3 witness: the theorem applied to a started monitor holding one SUCCESS
and one FAILED event. -/
theorem generate_report_success_rate_witness :
    ∃ r, generate_report ⟨[⟨1, "A", "SUCCESS", ""⟩, ⟨2, "B", "FAILED", ""⟩],
        some 0, some 3, 4⟩ = .report r ∧
      r.total_events = 2 ∧
      r.success_rate = specSuccessRate 1 2 := by
  have h := generate_report_success_rate
    ⟨[⟨1, "A", "SUCCESS", ""⟩, ⟨2, "B", "FAILED", ""⟩], some 0, some 3, 4⟩ 0
    rfl (by decide)
  simpa using h

/-- C3 counterexample: on a monitor that logged one SUCCESS event but on
which start_workflow was never invoked, generate_report returns only the
no-workflow dict; it carries no total_events and no success_rate, so the
claim fails for that execution log (N = 1, S = 1). -/
theorem generate_report_no_start_cex :
    (generate_report ⟨[⟨0, "A", "SUCCESS", ""⟩], none, none, 1⟩).totalEventsVal
      = none ∧
    (generate_report ⟨[⟨0, "A", "SUCCESS", ""⟩], none, none, 1⟩).successRateVal
      = none := by
  exact ⟨rfl, rfl⟩

/-- C4 (amended): once a workflow has been started, generate_report on an
empty execution log returns the full report with success_rate "N/A" and
total_events 0; the percentage expression that divides by the log length
sits in the non-empty branch of the conditional and is not taken. -/
theorem generate_report_empty_log (g : GoverningAgent) (t : Nat)
    (hstart : g.start_time = some t) (hempty : g.execution_log = []) :
    ∃ r, generate_report g = .report r ∧
      r.success_rate = "N/A" ∧ r.total_events = 0 := by
  simp only [generate_report, hstart]
  refine ⟨_, rfl, ?_, ?_⟩ <;> simp [hempty]

/-- C4 witness: the theorem applied to a started monitor with empty log. -/
theorem generate_report_empty_log_witness :
    ∃ r, generate_report ⟨[], some 0, some 1, 2⟩ = .report r ∧
      r.success_rate = "N/A" ∧ r.total_events = 0 :=
  generate_report_empty_log ⟨[], some 0, some 1, 2⟩ 0 rfl rfl

/-- C4 counterexample: with an empty execution log but no start_workflow
call, generate_report returns only the no-workflow dict, which carries
neither a success_rate key nor a total_events key. -/
theorem generate_report_empty_no_start_cex :
    (generate_report ⟨[], none, none, 0⟩).successRateVal = none ∧
    (generate_report ⟨[], none, none, 0⟩).totalEventsVal = none := by
  exact ⟨rfl, rfl⟩

/-- C10: if start_workflow was never called, generate_report returns only
the dict with the single key status = "No workflow executed" - no
success_rate, total_events or timeline keys - whatever the log holds. -/
theorem generate_report_requires_start (g : GoverningAgent)
    (h : g.start_time = none) :
    generate_report g = .noWorkflow ∧
    (generate_report g).totalEventsVal = none ∧
    (generate_report g).successRateVal = none ∧
    (generate_report g).timelineVal = none := by
  have hg : generate_report g = .noWorkflow := by
    simp only [generate_report, h]
  rw [hg]
  exact ⟨rfl, rfl, rfl, rfl⟩

/-- C10 witness: the theorem applied to a never-started monitor whose log
nevertheless holds three events. -/
theorem generate_report_requires_start_witness :
    generate_report ⟨[⟨0, "A", "STARTED", ""⟩, ⟨1, "A", "SUCCESS", ""⟩,
        ⟨2, "B", "FAILED", "x"⟩], none, none, 3⟩ = .noWorkflow ∧
    (generate_report ⟨[⟨0, "A", "STARTED", ""⟩, ⟨1, "A", "SUCCESS", ""⟩,
        ⟨2, "B", "FAILED", "x"⟩], none, none, 3⟩).totalEventsVal = none ∧
    (generate_report ⟨[⟨0, "A", "STARTED", ""⟩, ⟨1, "A", "SUCCESS", ""⟩,
        ⟨2, "B", "FAILED", "x"⟩], none, none, 3⟩).successRateVal = none ∧
    (generate_report ⟨[⟨0, "A", "STARTED", ""⟩, ⟨1, "A", "SUCCESS", ""⟩,
        ⟨2, "B", "FAILED", "x"⟩], none, none, 3⟩).timelineVal = none :=
  generate_report_requires_start _ rfl

/-! ## Claim theorems: Pipeline Orchestrator -/

/-- C1 (amended): whatever stage raises once process_bill has started, the
call returns (rather than raising) a ProcessingResult with status FAILED
whose error field is exactly str(e) of the exception (hence non-empty
whenever the exception message is non-empty), whose governance_report is the
report generated from the monitor after end_workflow set its end mark, and
whose stages mapping holds exactly the stages that completed before the
failure, each recorded SUCCESS, with no entry for the failing stage or any
later one. -/
theorem process_bill_failure_containment (env : Env) (g0 : GoverningAgent)
    (p : String) :
    (∀ e, env.extract_bill p = .error e →
      (process_bill env g0 p).1.status = "FAILED" ∧
      (process_bill env g0 p).1.error = some e ∧
      (process_bill env g0 p).1.stages = [] ∧
      (process_bill env g0 p).1.governance_report
        = some (generate_report (process_bill env g0 p).2) ∧
      (process_bill env g0 p).2.end_time ≠ none) ∧
    (∀ a e, env.extract_bill p = .ok a → env.extract_charges a = .error e →
      (process_bill env g0 p).1.status = "FAILED" ∧
      (process_bill env g0 p).1.error = some e ∧
      (process_bill env g0 p).1.stages
        = [("bill_extraction", StageEntry.mk "SUCCESS" a)] ∧
      (process_bill env g0 p).1.governance_report
        = some (generate_report (process_bill env g0 p).2) ∧
      (process_bill env g0 p).2.end_time ≠ none) ∧
    (∀ a b e, env.extract_bill p = .ok a → env.extract_charges a = .ok b →
        env.run_parallel b = .error e →
      (process_bill env g0 p).1.status = "FAILED" ∧
      (process_bill env g0 p).1.error = some e ∧
      (process_bill env g0 p).1.stages
        = [("bill_extraction", StageEntry.mk "SUCCESS" a),
           ("charge_extraction", StageEntry.mk "SUCCESS" b)] ∧
      (process_bill env g0 p).1.governance_report
        = some (generate_report (process_bill env g0 p).2) ∧
      (process_bill env g0 p).2.end_time ≠ none) := by
  refine ⟨?_, ?_, ?_⟩
  · intro e h
    simp [process_bill, h, finishRun, end_workflow]
  · intro a e ha h
    simp [process_bill, ha, h, finishRun, end_workflow]
  · intro a b e ha hb h
    simp [process_bill, ha, hb, h, finishRun, end_workflow]

/-- C1 witness: the theorem applied to a run whose ChargeExtraction stage
raises an exception with message "boom". -/
theorem process_bill_failure_containment_witness :
    (process_bill ⟨fun _ => .ok "ex", fun _ => .error "boom", fun _ => .ok "par"⟩
        GoverningAgent.init "bill.pdf").1.status = "FAILED" ∧
    (process_bill ⟨fun _ => .ok "ex", fun _ => .error "boom", fun _ => .ok "par"⟩
        GoverningAgent.init "bill.pdf").1.error = some "boom" ∧
    (process_bill ⟨fun _ => .ok "ex", fun _ => .error "boom", fun _ => .ok "par"⟩
        GoverningAgent.init "bill.pdf").1.stages
      = [("bill_extraction", StageEntry.mk "SUCCESS" "ex")] ∧
    (process_bill ⟨fun _ => .ok "ex", fun _ => .error "boom", fun _ => .ok "par"⟩
        GoverningAgent.init "bill.pdf").1.governance_report
      = some (generate_report
          (process_bill ⟨fun _ => .ok "ex", fun _ => .error "boom", fun _ => .ok "par"⟩
            GoverningAgent.init "bill.pdf").2) ∧
    (process_bill ⟨fun _ => .ok "ex", fun _ => .error "boom", fun _ => .ok "par"⟩
        GoverningAgent.init "bill.pdf").2.end_time ≠ none :=
  (process_bill_failure_containment
    ⟨fun _ => .ok "ex", fun _ => .error "boom", fun _ => .ok "par"⟩
    GoverningAgent.init "bill.pdf").2.1 "ex" "boom" rfl rfl

/-- C1 counterexample: a stage may raise an exception whose str() is the
empty string (in Python, for instance, raise Exception()); process_bill then
stores that empty string in the error field, so the error field is not
always non-empty as the claim states. -/
theorem process_bill_empty_error_cex :
    (process_bill ⟨fun _ => .error "", fun _ => .ok "x", fun _ => .ok "y"⟩
        GoverningAgent.init "bill.pdf").1.status = "FAILED" ∧
    (process_bill ⟨fun _ => .error "", fun _ => .ok "x", fun _ => .ok "y"⟩
        GoverningAgent.init "bill.pdf").1.error = some "" := by
  exact ⟨rfl, rfl⟩

/-- C2 (amended): when document loading and all three stage groups return
without raising, the ProcessingResult has status COMPLETED, its stages
mapping holds exactly bill_extraction, charge_extraction and
parallel_analysis in that order, each with status SUCCESS, and final_output
equals the parallel_analysis data string (so it is non-empty exactly when
that combined analysis string is non-empty). -/
theorem process_bill_full_success (env : Env) (g0 : GoverningAgent) (p : String)
    (a b c : String) (ha : env.extract_bill p = .ok a)
    (hb : env.extract_charges a = .ok b) (hc : env.run_parallel b = .ok c) :
    (process_bill env g0 p).1.status = "COMPLETED" ∧
    (process_bill env g0 p).1.stages
      = [("bill_extraction", StageEntry.mk "SUCCESS" a),
         ("charge_extraction", StageEntry.mk "SUCCESS" b),
         ("parallel_analysis", StageEntry.mk "SUCCESS" c)] ∧
    (process_bill env g0 p).1.final_output = some c := by
  simp [process_bill, ha, hb, hc, finishRun]

/-- C2 witness: the theorem applied to a fully successful run. -/
theorem process_bill_full_success_witness :
    (process_bill ⟨fun _ => .ok "ex", fun _ => .ok "ch", fun _ => .ok "par"⟩
        GoverningAgent.init "bill.pdf").1.status = "COMPLETED" ∧
    (process_bill ⟨fun _ => .ok "ex", fun _ => .ok "ch", fun _ => .ok "par"⟩
        GoverningAgent.init "bill.pdf").1.stages
      = [("bill_extraction", StageEntry.mk "SUCCESS" "ex"),
         ("charge_extraction", StageEntry.mk "SUCCESS" "ch"),
         ("parallel_analysis", StageEntry.mk "SUCCESS" "par")] ∧
    (process_bill ⟨fun _ => .ok "ex", fun _ => .ok "ch", fun _ => .ok "par"⟩
        GoverningAgent.init "bill.pdf").1.final_output = some "par" :=
  process_bill_full_success _ GoverningAgent.init "bill.pdf" "ex" "ch" "par"
    rfl rfl rfl

/-- C2 counterexample: the parallel group may settle with an empty combined
text; the run then completes with final_output equal to the empty string,
so final_output is not always non-empty as the claim states. -/
theorem process_bill_empty_output_cex :
    (process_bill ⟨fun _ => .ok "ex", fun _ => .ok "ch", fun _ => .ok ""⟩
        GoverningAgent.init "bill.pdf").1.status = "COMPLETED" ∧
    (process_bill ⟨fun _ => .ok "ex", fun _ => .ok "ch", fun _ => .ok ""⟩
        GoverningAgent.init "bill.pdf").1.final_output = some "" := by
  exact ⟨rfl, rfl⟩

/-- C5 (amended): the orchestrator (and nothing else) logs every monitor
event of a run: a STARTED event for each stage is appended before the stage
runs, and after each stage settles successfully a SUCCESS event with the
same stage name follows; when a stage raises, the next and last event is a
single FAILED event logged under the agent name Orchestrator, carrying the
exception string as its details - not under the name of the failing
stage. -/
theorem process_bill_monitor_events (env : Env) (g0 : GoverningAgent)
    (p : String) :
    (∀ a b c, env.extract_bill p = .ok a → env.extract_charges a = .ok b →
        env.run_parallel b = .ok c →
      (process_bill env g0 p).2.execution_log.map evRecord
        = g0.execution_log.map evRecord ++
          [("BillExtraction", "STARTED", ""),
           ("BillExtraction", "SUCCESS", "(" ++ toString a.length ++ " chars)"),
           ("ChargeExtraction", "STARTED", ""),
           ("ChargeExtraction", "SUCCESS", ""),
           ("DuplicateAuditor", "STARTED", ""),
           ("CodeAuditor", "STARTED", ""),
           ("ChargeExplainer", "STARTED", ""),
           ("DuplicateAuditor", "SUCCESS", ""),
           ("CodeAuditor", "SUCCESS", ""),
           ("ChargeExplainer", "SUCCESS", "")]) ∧
    (∀ e, env.extract_bill p = .error e →
      (process_bill env g0 p).2.execution_log.map evRecord
        = g0.execution_log.map evRecord ++
          [("BillExtraction", "STARTED", ""),
           ("Orchestrator", "FAILED", e)]) ∧
    (∀ a e, env.extract_bill p = .ok a → env.extract_charges a = .error e →
      (process_bill env g0 p).2.execution_log.map evRecord
        = g0.execution_log.map evRecord ++
          [("BillExtraction", "STARTED", ""),
           ("BillExtraction", "SUCCESS", "(" ++ toString a.length ++ " chars)"),
           ("ChargeExtraction", "STARTED", ""),
           ("Orchestrator", "FAILED", e)]) ∧
    (∀ a b e, env.extract_bill p = .ok a → env.extract_charges a = .ok b →
        env.run_parallel b = .error e →
      (process_bill env g0 p).2.execution_log.map evRecord
        = g0.execution_log.map evRecord ++
          [("BillExtraction", "STARTED", ""),
           ("BillExtraction", "SUCCESS", "(" ++ toString a.length ++ " chars)"),
           ("ChargeExtraction", "STARTED", ""),
           ("ChargeExtraction", "SUCCESS", ""),
           ("DuplicateAuditor", "STARTED", ""),
           ("CodeAuditor", "STARTED", ""),
           ("ChargeExplainer", "STARTED", ""),
           ("Orchestrator", "FAILED", e)]) := by
  refine ⟨?_, ?_, ?_, ?_⟩
  · intro a b c ha hb hc
    simp [process_bill, ha, hb, hc, finishRun, end_workflow, log_agent_execution,
      start_workflow, evRecord]
  · intro e h
    simp [process_bill, h, finishRun, end_workflow, log_agent_execution,
      start_workflow, evRecord]
  · intro a e ha h
    simp [process_bill, ha, h, finishRun, end_workflow, log_agent_execution,
      start_workflow, evRecord]
  · intro a b e ha hb h
    simp [process_bill, ha, hb, h, finishRun, end_workflow, log_agent_execution,
      start_workflow, evRecord]

/-- C5 witness: the theorem applied to a fully successful run starting from
a fresh monitor. -/
theorem process_bill_monitor_events_witness :
    (process_bill ⟨fun _ => .ok "exd", fun _ => .ok "ch", fun _ => .ok "par"⟩
        GoverningAgent.init "b.pdf").2.execution_log.map evRecord
      = GoverningAgent.init.execution_log.map evRecord ++
        [("BillExtraction", "STARTED", ""),
         ("BillExtraction", "SUCCESS", "(" ++ toString "exd".length ++ " chars)"),
         ("ChargeExtraction", "STARTED", ""),
         ("ChargeExtraction", "SUCCESS", ""),
         ("DuplicateAuditor", "STARTED", ""),
         ("CodeAuditor", "STARTED", ""),
         ("ChargeExplainer", "STARTED", ""),
         ("DuplicateAuditor", "SUCCESS", ""),
         ("CodeAuditor", "SUCCESS", ""),
         ("ChargeExplainer", "SUCCESS", "")] :=
  (process_bill_monitor_events
    ⟨fun _ => .ok "exd", fun _ => .ok "ch", fun _ => .ok "par"⟩
    GoverningAgent.init "b.pdf").1 "exd" "ch" "par" rfl rfl rfl

/-- C5 counterexample: in a run where the ChargeExtraction stage raises, the
monitor log ends with a FAILED event whose agent name is Orchestrator; no
FAILED event carrying the stage name ChargeExtraction is ever logged, so the
claim that a raising stage is followed by a FAILED event with that stage
name fails. -/
theorem process_bill_stage_failed_event_cex :
    (process_bill ⟨fun _ => .ok "exd", fun _ => .error "boom", fun _ => .ok "par"⟩
        GoverningAgent.init "b.pdf").1.status = "FAILED" ∧
    (process_bill ⟨fun _ => .ok "exd", fun _ => .error "boom", fun _ => .ok "par"⟩
        GoverningAgent.init "b.pdf").2.execution_log.map evSummary
      = [("BillExtraction", "STARTED"), ("BillExtraction", "SUCCESS"),
         ("ChargeExtraction", "STARTED"), ("Orchestrator", "FAILED")] ∧
    ((process_bill ⟨fun _ => .ok "exd", fun _ => .error "boom", fun _ => .ok "par"⟩
        GoverningAgent.init "b.pdf").2.execution_log.all
      (fun ev => !(ev.agent == "ChargeExtraction" && ev.status == "FAILED")))
      = true := by
  exact ⟨rfl, rfl, rfl⟩

/-! ## Claim theorems: retry policy, document loader, CLI -/

/-- C6 (amended): the four ADK-wrapped stage agents (ChargeExtraction and
the three parallel members) issue their capability calls through a Gemini
client configured with the single system retry policy - exponential backoff
with base 2 and initial delay 1, bounded at 5 attempts, applied exactly to
HTTP statuses 429, 500, 503 and 504 - while BillExtraction calls the
capability through a bare genai client constructed with no retry options at
all. -/
theorem stage_agent_retry_policy :
    (∀ a, a ∈ [chargeExtractionAgent, duplicateChargesAuditor,
        wrongCodesAuditor, chargeExplainerAgent] →
      a.clientRetry = some
        { attempts := 5, exp_base := 2, initial_delay := 1
          http_status_codes := [429, 500, 503, 504] }) ∧
    billExtractionAgent.clientRetry = none := by
  exact ⟨by decide, rfl⟩

/-- C6 witness: the theorem applied to the ChargeExtraction agent. -/
theorem stage_agent_retry_policy_witness :
    chargeExtractionAgent.clientRetry = some
      { attempts := 5, exp_base := 2, initial_delay := 1
        http_status_codes := [429, 500, 503, 504] } ∧
    billExtractionAgent.clientRetry = none :=
  ⟨stage_agent_retry_policy.1 chargeExtractionAgent (by decide),
   stage_agent_retry_policy.2⟩

/-- C6 counterexample: BillExtraction is one of the five stage agents, yet
its capability client carries no retry configuration, so not every stage
agent goes through a client configured with the system retry policy. -/
theorem stage_agent_retry_policy_cex :
    billExtractionAgent ∈ stageAgents ∧
    billExtractionAgent.clientRetry = none := by
  exact ⟨by decide, rfl⟩

/-- C7 (amended): the load operation raises NotFoundError exactly when
nothing exists at the path (an existing directory passes the existence check
and fails later with a different error), and for an existing PDF whose
decode fails it raises the conversion error that wraps the underlying
failure and whose message carries the configured rasterizer binary path;
those are the only outcomes for the two conditions. -/
theorem isNotFound_load_image_part (oracle : DecodeOracle)
    (poppler p instruction : String) :
    isNotFound (load_image_part oracle poppler p instruction) = false := by
  unfold load_image_part
  by_cases hpdf : isPdfPath p = true
  · simp only [hpdf, if_true]
    cases hc : oracle.convert_from_path p with
    | error e => simp [isNotFound]
    | ok imgs => cases imgs <;> simp [isNotFound]
  · simp only [hpdf, Bool.false_eq_true, if_false]
    cases hc : oracle.pil_open p with
    | error e => simp [hc, isNotFound]
    | ok img => simp [hc, isNotFound]

theorem document_loader_error_modes (fs : String → FSEntry)
    (oracle : DecodeOracle) (poppler p instruction : String) :
    (fs p = .missing →
      loadBillDocument fs oracle poppler p instruction
        = .error (.notFound ("File not found at: " ++ p))) ∧
    (isNotFound (loadBillDocument fs oracle poppler p instruction) = true →
      fs p = .missing) ∧
    (∀ e, fs p = .file → isPdfPath p = true →
        oracle.convert_from_path p = .error e →
      loadBillDocument fs oracle poppler p instruction
        = .error (.conversion ("Failed to convert PDF. Check path: " ++ poppler) e)) := by
  refine ⟨?_, ?_, ?_⟩
  · intro h
    simp [loadBillDocument, validate_file_exists, h]
  · intro h
    by_cases hm : fs p = .missing
    · exact hm
    · exfalso
      have hload : loadBillDocument fs oracle poppler p instruction
          = load_image_part oracle poppler p instruction := by
        simp [loadBillDocument, validate_file_exists, hm]
      rw [hload, isNotFound_load_image_part] at h
      exact Bool.false_ne_true h
  · intro e hf hpdf hc
    have hm : fs p ≠ .missing := by simp [hf]
    simp [loadBillDocument, validate_file_exists, hm, load_image_part, hpdf, hc]

/-- C7 witness: the theorem applied to a missing path and to an existing PDF
whose rasterization fails. -/
theorem document_loader_error_modes_witness :
    loadBillDocument (fun _ => FSEntry.missing)
        ⟨fun _ => .ok [1], fun _ => .ok 1⟩ "pop" "gone.pdf" "extract"
      = .error (.notFound ("File not found at: " ++ "gone.pdf")) ∧
    loadBillDocument (fun _ => FSEntry.file)
        ⟨fun _ => .error "poppler exploded", fun _ => .ok 1⟩ "pop" "bill.pdf"
        "extract"
      = .error (.conversion ("Failed to convert PDF. Check path: " ++ "pop")
          "poppler exploded") :=
  ⟨(document_loader_error_modes (fun _ => FSEntry.missing)
      ⟨fun _ => .ok [1], fun _ => .ok 1⟩ "pop" "gone.pdf" "extract").1 rfl,
   (document_loader_error_modes (fun _ => FSEntry.file)
      ⟨fun _ => .error "poppler exploded", fun _ => .ok 1⟩ "pop" "bill.pdf"
      "extract").2.2 "poppler exploded" rfl (by decide) rfl⟩

/-- C7 counterexample: a path naming an existing directory does not resolve
to an existing file, yet the load operation raises no NotFoundError for it -
Path.exists() is true for directories, so validation passes and the image
decoder fails later with a different error. -/
theorem document_loader_dir_cex :
    (fun q => if q = "billsdir" then FSEntry.dir else FSEntry.missing) "billsdir"
      = FSEntry.dir ∧
    FSEntry.dir ≠ FSEntry.file ∧
    isNotFound (loadBillDocument
      (fun q => if q = "billsdir" then FSEntry.dir else FSEntry.missing)
      ⟨fun _ => .ok [1], fun _ => .error "IsADirectoryError: billsdir"⟩
      "pop" "billsdir" "extract") = false := by
  exact ⟨rfl, by decide, rfl⟩

/-- C9: the interactive loop strips each input line; a stripped input equal
case-insensitively to quit, exit or q terminates the loop, a blank or
whitespace-only input is ignored without invoking any stage, and every other
input is forwarded (stripped) to the chatbot session. -/
theorem cli_input_classification (s : String) :
    (["quit", "exit", "q"].contains (pyLower (pyStrip s)) = true →
      classify_input s = .quitLoop) ∧
    (pyStrip s = "" → classify_input s = .ignore) ∧
    (pyStrip s ≠ "" →
      ["quit", "exit", "q"].contains (pyLower (pyStrip s)) = false →
      classify_input s = .forward (pyStrip s)) := by
  refine ⟨?_, ?_, ?_⟩
  · intro h
    simp only [classify_input]
    rw [if_pos h]
  · intro h
    simp only [classify_input, h]
    decide
  · intro h hq
    simp only [classify_input]
    rw [if_neg (by rw [hq]; exact Bool.false_ne_true), if_pos h]

/-- C9 witness: the theorem applied to the spec probe inputs: " Exit "
terminates, whitespace-only input is ignored, and a question is forwarded
stripped. -/
theorem cli_input_classification_witness :
    classify_input " Exit " = .quitLoop ∧
    classify_input "   " = .ignore ∧
    classify_input " what was the total? " = .forward (pyStrip " what was the total? ") :=
  ⟨(cli_input_classification " Exit ").1 (by decide),
   (cli_input_classification "   ").2.1 (by decide),
   (cli_input_classification " what was the total? ").2.2 (by decide) (by decide)⟩

/-! ## Claim theorems: session acquisition (spec-modelled service) -/

theorem lookupSession_append_single (st : SessionStore) (k k2 : SessionKey)
    (s : AdkSession) :
    lookupSession ⟨st.table ++ [(k, s)]⟩ k2
      = (lookupSession st k2).or (if k2 = k then some s else none) := by
  simp only [lookupSession, List.find?_append]
  cases h : st.table.find? (fun kv => kv.1 == k2) with
  | none =>
    by_cases hk : k2 = k
    · subst hk
      simp [List.find?, Option.or]
    · simp only [List.find?, Option.map_none, Option.none_or]
      rw [show (k == k2) = false from beq_eq_false_iff_ne.mpr
        (fun hkk => hk hkk.symm)]
      simp [hk]
  | some kv => simp [Option.or]

theorem lookupSession_append_turn (st : SessionStore) (k k2 : SessionKey)
    (t : Turn) :
    lookupSession (append_turn st k t) k2
      = (lookupSession st k2).map
          (fun s => if k2 = k then ⟨s.id, s.events ++ [t]⟩ else s) := by
  simp only [lookupSession, append_turn, List.find?_map]
  have hp : ((fun kv : SessionKey × AdkSession => kv.1 == k2) ∘
      (fun kv : SessionKey × AdkSession =>
        if kv.1 == k then (kv.1, AdkSession.mk kv.2.id (kv.2.events ++ [t]))
        else kv))
      = fun kv => kv.1 == k2 := by
    funext kv
    by_cases hk : kv.1 = k
    · simp [hk]
    · simp [hk]
  rw [hp]
  cases h : st.table.find? (fun kv => kv.1 == k2) with
  | none => simp
  | some kv =>
    have hkey : kv.1 = k2 := by
      have hsome := List.find?_some h
      simpa [beq_iff_eq] using hsome
    by_cases hk : k2 = k
    · simp [hkey, hk]
    · simp [hkey, hk]

theorem lookupSession_append_turns (st : SessionStore) (k : SessionKey)
    (ts : List Turn) :
    lookupSession (append_turns st k ts) k
      = (lookupSession st k).map (fun s => ⟨s.id, s.events ++ ts⟩) := by
  induction ts generalizing st with
  | nil =>
    cases h : lookupSession st k <;> simp [append_turns, h]
  | cons t rest ih =>
    have hstep : append_turns st k (t :: rest)
        = append_turns (append_turn st k t) k rest := rfl
    rw [hstep, ih, lookupSession_append_turn]
    cases h : lookupSession st k <;> simp [h]

theorem create_or_get_of_lookup (st : SessionStore) (app user sid : String)
    (s : AdkSession) (h : lookupSession st (app, user, sid) = some s) :
    create_or_get st app user sid = (s, st) := by
  simp [create_or_get, create_session, get_session, h]

theorem create_or_get_id (st : SessionStore) (app user sid : String)
    (hwf : WFStore st) :
    (create_or_get st app user sid).1.id = sid := by
  cases h : lookupSession st (app, user, sid) with
  | none => simp [create_or_get, create_session, h]
  | some s =>
    simp only [create_or_get, create_session, get_session, h]
    exact hwf (app, user, sid) s h

theorem create_or_get_lookup (st : SessionStore) (app user sid : String) :
    lookupSession (create_or_get st app user sid).2 (app, user, sid)
      = some (create_or_get st app user sid).1 := by
  cases h : lookupSession st (app, user, sid) with
  | none =>
    simp only [create_or_get, create_session, get_session, h]
    rw [lookupSession_append_single]
    simp [h]
  | some s =>
    simp [create_or_get, create_session, get_session, h]

theorem wf_create_or_get (st : SessionStore) (app user sid : String)
    (hwf : WFStore st) :
    WFStore (create_or_get st app user sid).2 := by
  cases h : lookupSession st (app, user, sid) with
  | none =>
    intro k2 s2 h2
    simp only [create_or_get, create_session, get_session, h] at h2
    rw [lookupSession_append_single] at h2
    cases hl : lookupSession st k2 with
    | some s3 =>
      rw [hl] at h2
      simp only [Option.or_some] at h2
      cases h2
      exact hwf k2 _ hl
    | none =>
      rw [hl] at h2
      simp only [Option.none_or] at h2
      by_cases hk : k2 = (app, user, sid)
      · rw [if_pos hk] at h2
        cases h2
        simp [hk]
      · rw [if_neg hk] at h2
        cases h2
  | some s =>
    simpa only [create_or_get, create_session, get_session, h] using hwf

theorem wf_append_turns (st : SessionStore) (k : SessionKey) (ts : List Turn)
    (hwf : WFStore st) :
    WFStore (append_turns st k ts) := by
  induction ts generalizing st with
  | nil => exact hwf
  | cons t rest ih =>
    have hstep : append_turns st k (t :: rest)
        = append_turns (append_turn st k t) k rest := rfl
    rw [hstep]
    apply ih
    intro k2 s2 h2
    rw [lookupSession_append_turn] at h2
    cases hl : lookupSession st k2 with
    | none => simp [hl] at h2
    | some s3 =>
      rw [hl] at h2
      simp only [Option.map_some'] at h2
      by_cases hk : k2 = k
      · rw [if_pos hk] at h2
        cases h2
        exact hwf k2 s3 hl
      · rw [if_neg hk] at h2
        cases h2
        exact hwf k2 _ hl

/-- C8: the create-then-fallback-to-get idiom is idempotent: a first
acquisition yields a session whose identity is the requested session id; any
number of turns may then be appended; a second acquisition with the same
(app, user, session_id) triple yields a session with the same identity, and
the stored turn log after the second acquisition extends the log after the
first by exactly the appended turns - repeated acquisition never resets
accumulated turns. -/
theorem create_or_get_idempotent (st : SessionStore) (app user sid : String)
    (ts : List Turn) (hwf : WFStore st) :
    (create_or_get st app user sid).1.id = sid ∧
    (create_or_get (append_turns (create_or_get st app user sid).2
        (app, user, sid) ts) app user sid).1.id = sid ∧
    sessionLog (create_or_get (append_turns (create_or_get st app user sid).2
        (app, user, sid) ts) app user sid).2 (app, user, sid)
      = sessionLog (create_or_get st app user sid).2 (app, user, sid) ++ ts := by
  have h1 := create_or_get_lookup st app user sid
  have hid1 := create_or_get_id st app user sid hwf
  have h2 : lookupSession (append_turns (create_or_get st app user sid).2
      (app, user, sid) ts) (app, user, sid)
      = some ⟨(create_or_get st app user sid).1.id,
              (create_or_get st app user sid).1.events ++ ts⟩ := by
    rw [lookupSession_append_turns, h1]
    rfl
  refine ⟨hid1, ?_, ?_⟩
  · rw [create_or_get_of_lookup _ _ _ _ _ h2]
    exact hid1
  · rw [create_or_get_of_lookup _ _ _ _ _ h2]
    simp only [sessionLog, h2, h1]

/-- C8 witness: the theorem applied to an empty store with the shared
session identifier of main.py and one appended user turn. -/
theorem create_or_get_idempotent_witness :
    (create_or_get ⟨[]⟩ "medical_bill_app" "default_user"
        "bill-analysis-session").1.id = "bill-analysis-session" ∧
    (create_or_get (append_turns (create_or_get ⟨[]⟩ "medical_bill_app"
        "default_user" "bill-analysis-session").2
        ("medical_bill_app", "default_user", "bill-analysis-session")
        [⟨"user", "What was the total?"⟩]) "medical_bill_app" "default_user"
        "bill-analysis-session").1.id = "bill-analysis-session" ∧
    sessionLog (create_or_get (append_turns (create_or_get ⟨[]⟩
        "medical_bill_app" "default_user" "bill-analysis-session").2
        ("medical_bill_app", "default_user", "bill-analysis-session")
        [⟨"user", "What was the total?"⟩]) "medical_bill_app" "default_user"
        "bill-analysis-session").2
        ("medical_bill_app", "default_user", "bill-analysis-session")
      = sessionLog (create_or_get ⟨[]⟩ "medical_bill_app" "default_user"
          "bill-analysis-session").2
          ("medical_bill_app", "default_user", "bill-analysis-session")
        ++ [⟨"user", "What was the total?"⟩] :=
  create_or_get_idempotent ⟨[]⟩ "medical_bill_app" "default_user"
    "bill-analysis-session" [⟨"user", "What was the total?"⟩]
    (by intro k s h; simp [lookupSession, List.find?] at h)

end MedBill
